import Mathlib

/-!
# Verification of the FIR disposal-urgency and performance-aggregation engine

Shallow embedding of the core of the FIR_PROJECT repository:

* `backend/models/FIR.model.js` — the `daysRemaining` and `disposalUrgencyStatus`
  virtuals, the `pre('save')` due-date hook;
* `frontend/app/api/.../route.ts` (in `fir-dashboard/tag-input.tsx`) — the
  `getUrgencyCategory` helper and the performance aggregation pipeline;
* `controllers/disposalController.js` (`src/unnamed/part_006`, first document) —
  `updateFIRDisposal` (the variant wired to `PATCH /:id/disposal` in
  `routes/disposalRoutes.js`) and the legacy variant (second document) together
  with its `getPerformanceReport`;
* `backend/controllers/firController.js` — `getAllFIRs` filter construction,
  `createFIR`, `updateFIR`;
* `backend/controllers/reportController.js` — `generatePerformanceReport`.

Dates/instants are modelled as `Int` milliseconds on a linear time axis
(JavaScript `Date.getTime()`); calendar dates for the due-date hook are
modelled as proleptic-Gregorian civil dates.
-/

/-- Disposal status enum of `FIR.model.js`
(`['Registered', 'Chargesheeted', 'Finalized']`). -/
inductive DisposalStatus where
  | registered
  | chargesheeted
  | finalized
deriving DecidableEq, Repr

/-- The five urgency tiers.  The FIR model virtual labels them
`Safe / Yellow / Orange / Red / Exceeded`; the report endpoints label the same
five buckets `Green / Yellow / Orange / Red / Red+ (Overdue)`. -/
inductive UrgencyTier where
  | safe
  | yellow
  | orange
  | red
  | overdue
deriving DecidableEq, Repr

/-- `1000 * 60 * 60 * 24`, the `MS_PER_DAY` constant used throughout the source. -/
def msPerDay : Int := 1000 * 60 * 60 * 24

/-- Ceiling division `⌈a / b⌉` for a positive divisor `b`, written through
Euclidean (floor, for positive `b`) division. -/
def ceilDiv (a b : Int) : Int := -((-a).ediv b)

/-- `FIR.model.js` virtual `daysRemaining`:
`Math.ceil((disposalDueDate.getTime() - today.getTime()) / (1000*60*60*24))`.
Both instants are integer millisecond counts, so the real-number ceiling of the
quotient is exactly `ceilDiv`. -/
def daysRemaining (dueDate now : Int) : Int := ceilDiv (dueDate - now) msPerDay

/-- `FIR.model.js` virtual `disposalUrgencyStatus` (the non-null-due-date path):
`days > 15 → 'Safe'; days >= 10 → 'Yellow'; days >= 5 → 'Orange';
days > 0 → 'Red'; otherwise 'Exceeded'`. -/
def disposalUrgencyStatus (days : Int) : UrgencyTier :=
  if days > 15 then .safe
  else if days ≥ 10 then .yellow
  else if days ≥ 5 then .orange
  else if days > 0 then .red
  else .overdue

/-- The FIR model's classifier applied to a due date and the current time,
composing the two virtuals of `FIR.model.js`. -/
def modelUrgencyTier (dueDate now : Int) : UrgencyTier :=
  disposalUrgencyStatus (daysRemaining dueDate now)

/-- `getUrgencyCategory` of the PDF-report route
(`frontend/app/api/admin/police-stations/route.ts` region of
`fir-dashboard/tag-input.tsx` lines 96–102):
`d < 0 → 'Red+'; d <= 5 → 'Red'; d <= 10 → 'Orange'; d <= 15 → 'Yellow';
otherwise 'Green'`. -/
def getUrgencyCategory (daysRemaining : Int) : UrgencyTier :=
  if daysRemaining < 0 then .overdue
  else if daysRemaining ≤ 5 then .red
  else if daysRemaining ≤ 10 then .orange
  else if daysRemaining ≤ 15 then .yellow
  else .safe

/-- The urgency bucketing inside `getPerformanceReport`
(`src/unnamed/part_006`, second document, lines 273–287 and 326–340):
`d < 0 → 'Red+ (Overdue)'; d <= 5 → 'Red'; d <= 10 → 'Orange';
d <= 15 → 'Yellow'; else 'Green'`. -/
def reportUrgencyBucket (daysRemaining : Int) : UrgencyTier :=
  if daysRemaining < 0 then .overdue
  else if daysRemaining ≤ 5 then .red
  else if daysRemaining ≤ 10 then .orange
  else if daysRemaining ≤ 15 then .yellow
  else .safe

/-- The pipeline classifier of the PDF-report route applied to a due date and
the current time (`calculateDaysRemaining` composed with `getUrgencyCategory`). -/
def pipelineUrgencyTier (dueDate now : Int) : UrgencyTier :=
  getUrgencyCategory (daysRemaining dueDate now)

/-- The performance report's classifier applied to a due date and the current
time (the inline `Math.ceil` composed with its bucketing). -/
def reportUrgencyTier (dueDate now : Int) : UrgencyTier :=
  reportUrgencyBucket (daysRemaining dueDate now)

/-! ## Civil-calendar model for the due-date hook -/

/-- Gregorian leap-year test. -/
def isLeapYear (y : Nat) : Bool :=
  (y % 4 == 0 && y % 100 != 0) || y % 400 == 0

/-- Length of month `m` (1–12) in a year of the given leapness.  Out-of-range
month numbers never arise from the definitions below. -/
def daysInMonth (leap : Bool) (m : Nat) : Nat :=
  match m with
  | 1 => 31
  | 2 => if leap then 29 else 28
  | 3 => 31
  | 4 => 30
  | 5 => 31
  | 6 => 30
  | 7 => 31
  | 8 => 31
  | 9 => 30
  | 10 => 31
  | 11 => 30
  | _ => 31

/-- Days strictly before month `m` within a year of the given leapness. -/
def daysBeforeMonth (leap : Bool) (m : Nat) : Nat :=
  match m with
  | 1 => 0
  | 2 => 31
  | 3 => if leap then 60 else 59
  | 4 => if leap then 91 else 90
  | 5 => if leap then 121 else 120
  | 6 => if leap then 152 else 151
  | 7 => if leap then 182 else 181
  | 8 => if leap then 213 else 212
  | 9 => if leap then 244 else 243
  | 10 => if leap then 274 else 273
  | 11 => if leap then 305 else 304
  | _ => if leap then 335 else 334

/-- Number of leap years among years `1 .. e`. -/
def leapsBefore (e : Nat) : Nat := e / 4 - e / 100 + e / 400

/-- A civil (proleptic Gregorian) calendar date. -/
structure CivilDate where
  year : Nat
  month : Nat
  day : Nat
deriving DecidableEq, Repr

/-- A date is valid when the month is 1–12 and the day fits the month. -/
def CivilDate.valid (d : CivilDate) : Prop :=
  1 ≤ d.year ∧ 1 ≤ d.month ∧ d.month ≤ 12 ∧ 1 ≤ d.day ∧
    d.day ≤ daysInMonth (isLeapYear d.year) d.month

instance (d : CivilDate) : Decidable d.valid := by
  unfold CivilDate.valid; infer_instance

/-- Linear day count of a date (days since the day before 0001-01-01).
Defined for out-of-range day-of-month values as well, which is what JavaScript
`Date.setDate` works with before normalisation. -/
def dayOrdinal (d : CivilDate) : Nat :=
  365 * (d.year - 1) + leapsBefore (d.year - 1) +
    daysBeforeMonth (isLeapYear d.year) d.month + (d.day - 1)

/-- Calendar normalisation underlying JavaScript `Date.setDate`: roll an
oversized day-of-month forward into the following months/years.  `fuel` bounds
the recursion; every step removes at least 28 days, so `fuel = d` suffices. -/
def setDateAux (fuel : Nat) (y m d : Nat) : CivilDate :=
  match fuel with
  | 0 => ⟨y, m, d⟩
  | fuel + 1 =>
    if d ≤ daysInMonth (isLeapYear y) m then ⟨y, m, d⟩
    else if m = 12 then setDateAux fuel (y + 1) 1 (d - daysInMonth (isLeapYear y) m)
    else setDateAux fuel y (m + 1) (d - daysInMonth (isLeapYear y) m)

/-- The due-date hook of `FIR.model.js` (`pre('save')`):
`dueDate = new Date(filingDate); dueDate.setDate(dueDate.getDate() + seriousnessDays)`,
i.e. add `seriousnessDays` calendar days to the filing date.  Identical
arithmetic backs `getDeadline`/`addDays` in `FirDashboard.tsx`. -/
def computeDueDate (filingDate : CivilDate) (seriousnessDays : Nat) : CivilDate :=
  setDateAux (filingDate.day + seriousnessDays) filingDate.year filingDate.month
    (filingDate.day + seriousnessDays)

/-- Millisecond instant of a civil date's midnight, placing the calendar on the
millisecond axis used by the classifiers. -/
def msOfDate (d : CivilDate) : Int := (dayOrdinal d : Int) * msPerDay

/-! ## Calendar lemmas -/

theorem daysInMonth_pos (leap : Bool) (m : Nat) : 1 ≤ daysInMonth leap m := by
  unfold daysInMonth
  split <;> first | omega | (cases leap <;> simp)

theorem daysBeforeMonth_succ (leap : Bool) (m : Nat) (h1 : 1 ≤ m) (h11 : m ≤ 11) :
    daysBeforeMonth leap (m + 1) = daysBeforeMonth leap m + daysInMonth leap m := by
  interval_cases m <;> cases leap <;> rfl

theorem daysBeforeMonth_december (leap : Bool) :
    daysBeforeMonth leap 12 + daysInMonth leap 12 = 365 + (if leap then 1 else 0) := by
  cases leap <;> rfl

theorem leapsBefore_succ (e : Nat) :
    365 * (e + 1) + leapsBefore (e + 1) =
      365 * e + leapsBefore e + 365 + (if isLeapYear (e + 1) then 1 else 0) := by
  unfold leapsBefore isLeapYear
  have h4 := Nat.succ_div e 4
  have h100 := Nat.succ_div e 100
  have h400 := Nat.succ_div e 400
  have d4 : e / 100 ≤ e / 4 := Nat.div_le_div_left (by norm_num) (by norm_num)
  have d4' : (e + 1) / 100 ≤ (e + 1) / 4 := Nat.div_le_div_left (by norm_num) (by norm_num)
  simp only [Nat.dvd_iff_mod_eq_zero] at h4 h100 h400
  simp only [Bool.or_eq_true, Bool.and_eq_true, beq_iff_eq, bne_iff_ne, ne_eq]
  split_ifs at h4 h100 h400 ⊢ <;> omega

/-- Invariant of the `setDate` normalisation: given enough fuel and a valid
month, it produces a valid date with the same linear day count. -/
theorem setDateAux_spec (fuel : Nat) :
    ∀ y m d, 1 ≤ y → 1 ≤ m → m ≤ 12 → 1 ≤ d → d ≤ fuel →
      (setDateAux fuel y m d).valid ∧
      dayOrdinal (setDateAux fuel y m d) = dayOrdinal ⟨y, m, d⟩ := by
  induction fuel with
  | zero => intro y m d _ _ _ h1 h2; omega
  | succ fuel ih =>
    intro y m d hy hm1 hm12 hd1 hdf
    unfold setDateAux
    by_cases hfit : d ≤ daysInMonth (isLeapYear y) m
    · rw [if_pos hfit]
      exact ⟨⟨hy, hm1, hm12, hd1, hfit⟩, rfl⟩
    · have hdim : 1 ≤ daysInMonth (isLeapYear y) m := daysInMonth_pos _ _
      simp only [hfit, if_neg, if_false]
      by_cases hm : m = 12
      · subst hm
        simp only [if_pos rfl]
        have hrec := ih (y + 1) 1 (d - daysInMonth (isLeapYear y) 12)
          (by omega) (by omega) (by omega) (by omega) (by omega)
        refine ⟨hrec.1, hrec.2.trans ?_⟩
        unfold dayOrdinal
        simp only [Nat.add_sub_cancel]
        have hy' : y - 1 + 1 = y := by omega
        have hstep := leapsBefore_succ (y - 1)
        rw [hy'] at hstep
        have hdec := daysBeforeMonth_december (isLeapYear y)
        have hdim12 : daysInMonth (isLeapYear y) 12 = 31 := by
          cases isLeapYear y <;> rfl
        have hbm1 : ∀ b : Bool, daysBeforeMonth b 1 = 0 := by intro b; cases b <;> rfl
        rw [hbm1]
        split_ifs at hstep hdec <;> omega
      · simp only [if_neg hm]
        have hrec := ih y (m + 1) (d - daysInMonth (isLeapYear y) m)
          hy (by omega) (by omega) (by omega) (by omega)
        refine ⟨hrec.1, hrec.2.trans ?_⟩
        unfold dayOrdinal
        have hstep := daysBeforeMonth_succ (isLeapYear y) m hm1 (by omega)
        simp only
        omega

/-! ## C2 — the FIR-model urgency classifier and its tier table -/

theorem disposalUrgencyStatus_cases (d : Int) :
    (disposalUrgencyStatus d = .safe ↔ 15 < d) ∧
    (disposalUrgencyStatus d = .yellow ↔ 10 ≤ d ∧ d ≤ 15) ∧
    (disposalUrgencyStatus d = .orange ↔ 5 ≤ d ∧ d < 10) ∧
    (disposalUrgencyStatus d = .red ↔ 0 < d ∧ d < 5) ∧
    (disposalUrgencyStatus d = .overdue ↔ d ≤ 0) := by
  unfold disposalUrgencyStatus
  split_ifs <;> refine ⟨?_, ?_, ?_, ?_, ?_⟩ <;> simp <;> omega

/-- **C2.** The FIR model's urgency classifier computes
`daysRemaining = ceil((dueDate − now) / 1 day)` and returns exactly the tier of
the canonical table: Safe iff `d > 15`, Yellow iff `10 ≤ d ≤ 15`, Orange iff
`5 ≤ d < 10`, Red iff `0 < d < 5`, Exceeded iff `d ≤ 0`.  In particular
`now = 2025-03-28`, `dueDate = 2025-04-01` gives `d = 4` and tier Red, and
`now = 2025-04-05`, `dueDate = 2025-04-01` gives `d = -4` and tier Exceeded. -/
theorem urgency_classifier_canonical_table :
    (∀ dueDate now : Int,
      (modelUrgencyTier dueDate now = .safe ↔ 15 < daysRemaining dueDate now) ∧
      (modelUrgencyTier dueDate now = .yellow ↔
        10 ≤ daysRemaining dueDate now ∧ daysRemaining dueDate now ≤ 15) ∧
      (modelUrgencyTier dueDate now = .orange ↔
        5 ≤ daysRemaining dueDate now ∧ daysRemaining dueDate now < 10) ∧
      (modelUrgencyTier dueDate now = .red ↔
        0 < daysRemaining dueDate now ∧ daysRemaining dueDate now < 5) ∧
      (modelUrgencyTier dueDate now = .overdue ↔ daysRemaining dueDate now ≤ 0)) ∧
    daysRemaining (msOfDate ⟨2025, 4, 1⟩) (msOfDate ⟨2025, 3, 28⟩) = 4 ∧
    modelUrgencyTier (msOfDate ⟨2025, 4, 1⟩) (msOfDate ⟨2025, 3, 28⟩) = .red ∧
    daysRemaining (msOfDate ⟨2025, 4, 1⟩) (msOfDate ⟨2025, 4, 5⟩) = -4 ∧
    modelUrgencyTier (msOfDate ⟨2025, 4, 1⟩) (msOfDate ⟨2025, 4, 5⟩) = .overdue := by
  refine ⟨fun dueDate now => disposalUrgencyStatus_cases _, ?_, ?_, ?_, ?_⟩ <;> decide

/-! ## C3 — the three classification call-sites do not agree -/

/-- **C3 counterexample.** With `dueDate` exactly 5 days after `now`
(`daysRemaining = 5`), the FIR-model virtual classifies the case Orange while
the performance report's bucketing (and `getUrgencyCategory`) classify it Red,
so the claim that every call-site computes the same tier is false. -/
theorem urgency_callsites_disagree :
    daysRemaining (5 * msPerDay) 0 = 5 ∧
    modelUrgencyTier (5 * msPerDay) 0 = .orange ∧
    reportUrgencyTier (5 * msPerDay) 0 = .red ∧
    pipelineUrgencyTier (5 * msPerDay) 0 = .red ∧
    modelUrgencyTier (5 * msPerDay) 0 ≠ reportUrgencyTier (5 * msPerDay) 0 := by
  refine ⟨?_, ?_, ?_, ?_, ?_⟩ <;> decide

/-- **C3 (amended).** `getUrgencyCategory` and the performance report's
bucketing agree at every input, and the FIR-model virtual agrees with them
except exactly at `daysRemaining ∈ {0, 5, 10}`, where the model returns
Exceeded / Orange / Yellow while the other two return Red / Red / Orange. -/
theorem urgency_callsites_agreement :
    (∀ dueDate now : Int,
      pipelineUrgencyTier dueDate now = reportUrgencyTier dueDate now) ∧
    (∀ dueDate now : Int,
      daysRemaining dueDate now ≠ 0 → daysRemaining dueDate now ≠ 5 →
      daysRemaining dueDate now ≠ 10 →
      modelUrgencyTier dueDate now = reportUrgencyTier dueDate now) ∧
    disposalUrgencyStatus 0 = .overdue ∧ reportUrgencyBucket 0 = .red ∧
    disposalUrgencyStatus 5 = .orange ∧ reportUrgencyBucket 5 = .red ∧
    disposalUrgencyStatus 10 = .yellow ∧ reportUrgencyBucket 10 = .orange := by
  refine ⟨fun dueDate now => rfl, fun dueDate now h0 h5 h10 => ?_, by decide, by decide,
    by decide, by decide, by decide, by decide⟩
  unfold modelUrgencyTier reportUrgencyTier disposalUrgencyStatus reportUrgencyBucket
  set d := daysRemaining dueDate now with hd
  split_ifs <;> first | rfl | omega

/-- Witness for the amended C3 statement at `daysRemaining = 7`
(due 7 days from now): all three call-sites return Orange. -/
theorem urgency_callsites_agreement_witness :
    pipelineUrgencyTier (7 * msPerDay) 0 = reportUrgencyTier (7 * msPerDay) 0 ∧
    modelUrgencyTier (7 * msPerDay) 0 = reportUrgencyTier (7 * msPerDay) 0 := by
  exact ⟨urgency_callsites_agreement.1 (7 * msPerDay) 0,
    urgency_callsites_agreement.2.1 (7 * msPerDay) 0
      (by decide) (by decide) (by decide)⟩

/-! ## C5 — the deadline calculator -/

/-- **C5.** For every valid filing date and seriousness class in {60, 90, 180},
`computeDueDate` returns exactly the filing date plus that many calendar days
(a valid date whose linear day count is the filing date's plus the class),
with no timezone conversion and no business-day skipping; in particular
`2025-01-01` with class 90 gives `2025-04-01`. -/
theorem computeDueDate_adds_calendar_days :
    (∀ (filingDate : CivilDate) (seriousnessDays : Nat), filingDate.valid →
      (seriousnessDays = 60 ∨ seriousnessDays = 90 ∨ seriousnessDays = 180) →
      (computeDueDate filingDate seriousnessDays).valid ∧
      dayOrdinal (computeDueDate filingDate seriousnessDays) =
        dayOrdinal filingDate + seriousnessDays) ∧
    computeDueDate ⟨2025, 1, 1⟩ 90 = ⟨2025, 4, 1⟩ := by
  constructor
  · intro filing cls hv _
    obtain ⟨hy, hm1, hm12, hd1, _⟩ := hv
    have h := setDateAux_spec (filing.day + cls) filing.year filing.month
      (filing.day + cls) hy hm1 hm12 (by omega) (by omega)
    refine ⟨h.1, h.2.trans ?_⟩
    unfold dayOrdinal
    simp only
    omega
  · decide

/-- Witness for C5 at filing date `2025-01-01` and class 90. -/
theorem computeDueDate_adds_calendar_days_witness :
    (computeDueDate ⟨2025, 1, 1⟩ 90).valid ∧
    dayOrdinal (computeDueDate ⟨2025, 1, 1⟩ 90) = dayOrdinal ⟨2025, 1, 1⟩ + 90 :=
  computeDueDate_adds_calendar_days.1 ⟨2025, 1, 1⟩ 90 (by decide) (Or.inr (Or.inl rfl))

/-! ## Data model for the controllers -/

/-- The authenticated actor (`req.user`): role `'admin' | 'ps' | 'sdpo'`,
the officer's own station, and the SDPO's station list. -/
structure Actor where
  role : String
  police_station : String
  subdivision_stations : List String
deriving DecidableEq, Repr

/-- An FIR document as persisted by `FIR.model.js` (fields the core reads or
writes).  Instants are `Int` milliseconds; `status` is the legacy
`'active' | 'closed'` field written by the old disposal controller. -/
structure FIR where
  firNumber : String
  sections : List (String × String)
  policeStation : String
  policeStationId : Nat
  filingDate : Int
  seriousnessDays : Nat
  disposalStatus : DisposalStatus
  disposalDate : Option Int
  disposalDueDate : Option Int
  isActive : Bool
  status : String
deriving DecidableEq, Repr

/-- Decode one of the three schema enum strings (callers validate membership
first; any other string falls through to `finalized`, mirroring that the code
never reaches the assignment with an invalid enum value). -/
def statusOfString (s : String) : DisposalStatus :=
  if s = "Registered" then .registered
  else if s = "Chargesheeted" then .chargesheeted
  else .finalized

/-- Station-name extraction used by the legacy controllers:
`fir.policeStation.includes(' (') ? fir.policeStation.split(' (')[0] : fir.policeStation`. -/
def extractStationName (s : String) : String :=
  (s.splitOn " (").headD s

/-- `updateFIRDisposal` of `disposalController.js` (`src/unnamed/part_006`,
first document, lines 10–101) — the variant wired to
`PATCH /:id/disposal` in `routes/disposalRoutes.js`.  It validates the fields,
the enum value, activity and date ordering, and **applies any of the three
statuses without inspecting the current status** (`Registered ↔ Chargesheeted
↔ Finalized`, per its own doc comment). -/
def updateFIRDisposal (fir : FIR) (status : Option String)
    (dateOfDisposal : Option Int) : Except String FIR :=
  match status, dateOfDisposal with
  | some s, some d =>
    if ¬ (s = "Registered" ∨ s = "Chargesheeted" ∨ s = "Finalized") then
      .error "Status must be one of: Registered, Chargesheeted, Finalized"
    else if fir.isActive = false then
      .error "Cannot update disposal for inactive FIR"
    else if d < fir.filingDate then
      .error "Disposal date cannot be before filing date"
    else
      .ok { fir with disposalStatus := statusOfString s, disposalDate := some d }
  | _, _ => .error "Status and date of disposal are required"

/-- The legacy `updateFIRDisposal` (`src/unnamed/part_006`, second document,
lines 149–243): only `Chargesheeted`/`Finalized` inputs, role scoping on the
extracted station name, and rejection of any FIR whose current status is not
`Registered` (`FIR is already ...`); on success it also flips the legacy
`status` field to `'closed'` for finalization. -/
def updateFIRDisposalLegacy (user : Actor) (fir : FIR) (status : Option String)
    (dateOfDisposal : Option Int) : Except String FIR :=
  match status, dateOfDisposal with
  | some s, some d =>
    if ¬ (s = "Chargesheeted" ∨ s = "Finalized") then
      .error "Status must be either Chargesheeted or Finalized"
    else
      if user.role = "ps" ∧ extractStationName fir.policeStation ≠ user.police_station then
        .error "Access denied - You can only update FIRs for your police station"
      else if user.role = "sdpo" ∧
          extractStationName fir.policeStation ∉ user.subdivision_stations then
        .error "Access denied - You can only update FIRs for stations in your subdivision"
      else if fir.disposalStatus ≠ .registered then
        .error "FIR is already disposed"
      else
        .ok { fir with disposalStatus := statusOfString s, disposalDate := some d,
                       status := if s = "Finalized" then "closed" else "active" }
  | _, _ => .error "Status and date of disposal are required"

/-- A concrete active, already-finalized FIR. -/
def sampleFinalizedFIR : FIR :=
  { firNumber := "2025/001", sections := [("IPC", "302")],
    policeStation := "PANAJI PS", policeStationId := 1,
    filingDate := 0, seriousnessDays := 90, disposalStatus := .finalized,
    disposalDate := some (80 * msPerDay), disposalDueDate := some (90 * msPerDay),
    isActive := true, status := "closed" }

/-- A concrete active FIR still in `Registered`. -/
def sampleRegisteredFIR : FIR :=
  { firNumber := "2025/002", sections := [("IPC", "420")],
    policeStation := "PANAJI PS", policeStationId := 1,
    filingDate := 0, seriousnessDays := 90, disposalStatus := .registered,
    disposalDate := none, disposalDueDate := some (90 * msPerDay),
    isActive := true, status := "active" }

/-- A concrete admin actor. -/
def adminActor : Actor :=
  { role := "admin", police_station := "", subdivision_stations := [] }

/-! ## C4 — the disposal state machine is not forward-only -/

/-- **C4 counterexample.** The wired `updateFIRDisposal` moves a `Finalized`
case back to `Registered` without error, and the legacy variant moves a
`Registered` case directly to `Finalized`, so neither half of the
forward-only claim holds on the code. -/
theorem forward_only_transitions_counterexample :
    updateFIRDisposal sampleFinalizedFIR (some "Registered") (some (85 * msPerDay)) =
      .ok { sampleFinalizedFIR with disposalStatus := .registered, disposalDate := some (85 * msPerDay) } ∧
    updateFIRDisposalLegacy adminActor sampleRegisteredFIR (some "Finalized")
        (some (85 * msPerDay)) =
      .ok { sampleRegisteredFIR with disposalStatus := .finalized, disposalDate := some (85 * msPerDay), status := "closed" } := by
  exact ⟨rfl, rfl⟩

/-- **C4 (amended).** The wired disposal controller permits *every* transition
between the three statuses for an active case whose disposal date is not
before the filing date; the legacy variant rejects every update of a case not
currently `Registered` and accepts the direct `Registered → Finalized` jump. -/
theorem disposal_transitions_amended :
    (∀ (fir : FIR) (s : String) (d : Int),
      fir.isActive = true → fir.filingDate ≤ d →
      (s = "Registered" ∨ s = "Chargesheeted" ∨ s = "Finalized") →
      updateFIRDisposal fir (some s) (some d) =
        .ok { fir with disposalStatus := statusOfString s, disposalDate := some d }) ∧
    (∀ (user : Actor) (fir : FIR) (status : Option String)
        (dateOfDisposal : Option Int) (u : FIR),
      fir.disposalStatus ≠ .registered →
      updateFIRDisposalLegacy user fir status dateOfDisposal ≠ .ok u) ∧
    (∀ (user : Actor) (fir : FIR) (d : Int),
      user.role = "admin" → fir.disposalStatus = .registered →
      updateFIRDisposalLegacy user fir (some "Finalized") (some d) =
        .ok { fir with disposalStatus := .finalized, disposalDate := some d, status := "closed" }) := by
  refine ⟨?_, ?_, ?_⟩
  · intro fir s d hact hdate hs
    simp only [updateFIRDisposal]
    rw [if_neg (not_not_intro hs), if_neg (by simp [hact]), if_neg (by omega)]
  · intro user fir status dateOfDisposal u hst
    cases status with
    | none => simp [updateFIRDisposalLegacy]
    | some s =>
      cases dateOfDisposal with
      | none => simp [updateFIRDisposalLegacy]
      | some d =>
        simp only [updateFIRDisposalLegacy]
        split_ifs <;> simp_all
  · intro user fir d hrole hst
    simp [updateFIRDisposalLegacy, hrole, hst, statusOfString]

/-- Witness for the amended C4 at concrete inputs. -/
theorem disposal_transitions_amended_witness :
    updateFIRDisposal sampleFinalizedFIR (some "Chargesheeted") (some 3) =
      .ok { sampleFinalizedFIR with disposalStatus := statusOfString "Chargesheeted", disposalDate := some 3 } ∧
    updateFIRDisposalLegacy adminActor sampleFinalizedFIR (some "Finalized") (some 3) ≠
      .ok sampleFinalizedFIR ∧
    updateFIRDisposalLegacy adminActor sampleRegisteredFIR (some "Finalized") (some 3) =
      .ok { sampleRegisteredFIR with disposalStatus := .finalized, disposalDate := some 3, status := "closed" } :=
  ⟨disposal_transitions_amended.1 sampleFinalizedFIR "Chargesheeted" 3 (by decide)
      (by decide) (Or.inr (Or.inl rfl)),
    disposal_transitions_amended.2.1 adminActor sampleFinalizedFIR (some "Finalized")
      (some 3) sampleFinalizedFIR (by decide),
    disposal_transitions_amended.2.2 adminActor sampleRegisteredFIR 3 rfl rfl⟩

/-! ## C10 — disposal updates require an active FIR -/

/-- **C10.** For every FIR whose `isActive` flag is false, the wired disposal
update fails with `'Cannot update disposal for inactive FIR'` (and, returning
an error, leaves the stored case unchanged), for any valid status input. -/
theorem updateFIRDisposal_rejects_inactive :
    ∀ (fir : FIR) (s : String) (d : Int),
      (s = "Registered" ∨ s = "Chargesheeted" ∨ s = "Finalized") →
      fir.isActive = false →
      updateFIRDisposal fir (some s) (some d) =
        .error "Cannot update disposal for inactive FIR" := by
  intro fir s d hs hia
  simp only [updateFIRDisposal]
  rw [if_neg (not_not_intro hs), if_pos hia]

/-- Witness for C10 at a concrete inactive FIR. -/
theorem updateFIRDisposal_rejects_inactive_witness :
    updateFIRDisposal { sampleRegisteredFIR with isActive := false }
        (some "Chargesheeted") (some 3) =
      .error "Cannot update disposal for inactive FIR" :=
  updateFIRDisposal_rejects_inactive { sampleRegisteredFIR with isActive := false }
    "Chargesheeted" 3 (Or.inr (Or.inl rfl)) rfl

/-! ## Performance aggregation -/

/-- A police station of the Station registry (`PoliceStation.model.js`). -/
structure PoliceStation where
  id : Nat
  name : String
  isActive : Bool
deriving DecidableEq, Repr

/-- `isChargesheetedOnTime` of the aggregation pipeline
(`fir-dashboard/tag-input.tsx`, stage 4): status `Chargesheeted`, both dates
non-null, and `disposalDate <= disposalDueDate`. -/
def isChargesheetedOnTime (f : FIR) : Bool :=
  match f.disposalStatus, f.disposalDate, f.disposalDueDate with
  | .chargesheeted, some d, some due => decide (d ≤ due)
  | _, _, _ => false

/-- Pipeline `$group` accumulator `chargesheetedOnTime` over one station's
matched documents. -/
def chargesheetedOnTime (cases : List FIR) : Nat := cases.countP isChargesheetedOnTime

/-- Modelled from the spec: `onTimeChargesheetedCount` is the "count of cases
where `disposalStatus = Chargesheeted` and `disposalDate ≤ disposalDueDate`"
(both dates present).  Kept separate from the pipeline translation so the two
can be compared. -/
def specOnTimeChargesheetedCount (cases : List FIR) : Nat :=
  cases.countP fun f =>
    f.disposalStatus == .chargesheeted &&
      match f.disposalDate, f.disposalDueDate with
      | some d, some due => decide (d ≤ due)
      | _, _ => false

/-- MongoDB `$round` to the nearest integer (round half to even). -/
def mongoRound (x : ℚ) : ℤ :=
  if Int.fract x = 1 / 2 then (if ⌊x⌋ % 2 = 0 then ⌊x⌋ else ⌊x⌋ + 1) else round x

/-- MongoDB `$round: [x, 2]` — round to two decimal places. -/
def mongoRound2 (x : ℚ) : ℚ := (mongoRound (x * 100) : ℚ) / 100

/-- Pipeline stages 6–7 for one station's group: `performancePercentage` is
`chargesheetedOnTime / totalRegisteredCases * 100` when the group is
non-empty (else 0), rounded to **two decimal places** in the `$project`. -/
def pipelinePerformancePercentage (cases : List FIR) : ℚ :=
  if 0 < cases.length then
    mongoRound2 ((chargesheetedOnTime cases : ℚ) / (cases.length : ℚ) * 100)
  else 0

/-- One station's row of the legacy `getPerformanceReport`
(`src/unnamed/part_006`, second document, lines 290–356). -/
structure StationPerf where
  stationId : Nat
  totalUndisposedFIRs : Nat
  totalChargesheetedFIRs : Nat
  performancePercentage : ℤ
deriving DecidableEq, Repr

/-- The legacy report's `stationFIRs` query:
`FIR.find({ policeStationId: station._id, disposalStatus: 'Registered' })`. -/
def legacyUndisposedCount (firs : List FIR) (stationId : Nat) : Nat :=
  (firs.filter fun f =>
    f.policeStationId == stationId && f.disposalStatus == .registered).length

/-- The legacy report's `chargesheetedWithinDueDate` query:
`FIR.find({ policeStationId, disposalStatus: 'Chargesheeted', disposalDate: { $lte: new Date() } })`
— note the comparison is against **today**, not the due date. -/
def legacyChargesheetedByNowCount (now : Int) (firs : List FIR) (stationId : Nat) : Nat :=
  (firs.filter fun f =>
    f.policeStationId == stationId && f.disposalStatus == .chargesheeted &&
      (match f.disposalDate with | some d => decide (d ≤ now) | none => false)).length

/-- The legacy report's per-station percentage:
`Math.round(totalChargesheeted / totalUndisposed * 100)` when
`totalUndisposed > 0`, else 0.  JavaScript `Math.round` is `⌊x + 1/2⌋`,
which is Mathlib's `round`. -/
def legacyPerformancePercentage (now : Int) (firs : List FIR) (stationId : Nat) : ℤ :=
  if 0 < legacyUndisposedCount firs stationId then
    round ((legacyChargesheetedByNowCount now firs stationId : ℚ) /
      (legacyUndisposedCount firs stationId : ℚ) * 100)
  else 0

/-- The legacy `getPerformanceReport` per-station row
(`src/unnamed/part_006`, second document, lines 294–352). -/
def getPerfStationEntry (now : Int) (firs : List FIR) (stationId : Nat) : StationPerf :=
  { stationId := stationId,
    totalUndisposedFIRs := legacyUndisposedCount firs stationId,
    totalChargesheetedFIRs := legacyChargesheetedByNowCount now firs stationId,
    performancePercentage := legacyPerformancePercentage now firs stationId }

/-- The legacy report's station loop: stations are enumerated from the active
Station registry (`PoliceStation.find({ isActive: true })`), one row each. -/
def getPerformanceReportStations (stations : List PoliceStation) (firs : List FIR)
    (now : Int) : List StationPerf :=
  (stations.filter (·.isActive)).map fun st => getPerfStationEntry now firs st.id

/-- The set of `$group` keys of the aggregation pipeline (stage 5 groups the
**matched FIR documents** by `policeStationId` — stations come from case data,
not from the registry). -/
def pipelineStationKeys (cases : List FIR) : List Nat :=
  (cases.map (·.policeStationId)).dedup

/-- One row of `generatePerformanceReport`'s `stationPerformance`
(`reportController.js`, lines 70–134). -/
structure StationCompletion where
  stationId : Nat
  totalFIRs : Nat
  completionRate : ℤ
deriving DecidableEq, Repr

/-- `generatePerformanceReport`'s `$lookup`: the station's FIRs matching the
base filter (`isActive: true`, no date/station restriction supplied). -/
def reportStationFIRs (firs : List FIR) (stationId : Nat) : List FIR :=
  firs.filter fun f => f.policeStationId == stationId && f.isActive

/-- `generatePerformanceReport`'s per-station
`completionRate = $round((chargesheetedFIRs + finalizedFIRs) / totalFIRs * 100)`,
0 when the station has no FIRs. -/
def reportCompletionRate (firs : List FIR) (stationId : Nat) : ℤ :=
  if 0 < (reportStationFIRs firs stationId).length then
    mongoRound
      ((((reportStationFIRs firs stationId).filter fun f =>
          f.disposalStatus == .chargesheeted).length +
        ((reportStationFIRs firs stationId).filter fun f =>
          f.disposalStatus == .finalized).length : ℚ) /
        ((reportStationFIRs firs stationId).length : ℚ) * 100)
  else 0

/-- `generatePerformanceReport`'s per-station aggregation: it starts from the
active Station registry (`$match { isActive: true }` on `policestations`) and
emits one row per station. -/
def generatePerformanceReportRows (stations : List PoliceStation)
    (firs : List FIR) : List StationCompletion :=
  (stations.filter (·.isActive)).map fun st =>
    { stationId := st.id,
      totalFIRs := (reportStationFIRs firs st.id).length,
      completionRate := reportCompletionRate firs st.id }

/-- A still-`Registered` case of the worked scenario's station. -/
def scenarioRegistered : FIR :=
  { firNumber := "2025/R", sections := [("IPC", "302")],
    policeStation := "PANAJI PS", policeStationId := 1,
    filingDate := 0, seriousnessDays := 90, disposalStatus := .registered,
    disposalDate := none, disposalDueDate := some (90 * msPerDay),
    isActive := true, status := "active" }

/-- A case of the worked scenario chargesheeted on day 80 of its 90-day
window — on time, and in the past at reporting time. -/
def scenarioChargesheeted : FIR :=
  { firNumber := "2025/C", sections := [("IPC", "302")],
    policeStation := "PANAJI PS", policeStationId := 1,
    filingDate := 0, seriousnessDays := 90, disposalStatus := .chargesheeted,
    disposalDate := some (80 * msPerDay), disposalDueDate := some (90 * msPerDay),
    isActive := true, status := "active" }

/-- The spec's worked population: 10 cases at one station, 6 still Registered
and 4 Chargesheeted on or before their due date. -/
def scenarioCases : List FIR :=
  List.replicate 6 scenarioRegistered ++ List.replicate 4 scenarioChargesheeted

/-! ## C1 — the performance metric -/

/-- **C1 counterexample.** On the spec's own worked population (10 cases,
4 chargesheeted on time, 6 still registered), the legacy `getPerformanceReport`
— one of the performance aggregators — returns `round(4 / 6 * 100) = 67`, not
the claimed `round(4 / 10 * 100) = 40`: it divides by the count of
still-Registered cases and tests `disposalDate` against *now* rather than the
due date. -/
theorem performance_metric_counterexample :
    (getPerfStationEntry (100 * msPerDay) scenarioCases 1).performancePercentage = 67 ∧
    (getPerfStationEntry (100 * msPerDay) scenarioCases 1).totalUndisposedFIRs = 6 ∧
    (67 : ℤ) ≠ 40 := by
  have hu : legacyUndisposedCount scenarioCases 1 = 6 := by decide
  have hc : legacyChargesheetedByNowCount (100 * msPerDay) scenarioCases 1 = 4 := by decide
  refine ⟨?_, hu, by decide⟩
  show legacyPerformancePercentage (100 * msPerDay) scenarioCases 1 = 67
  unfold legacyPerformancePercentage
  rw [hu, hc, if_pos (by norm_num), round_eq, Int.floor_eq_iff]
  norm_num

/-- **C1 (amended).** The aggregation-pipeline variant computes
`chargesheetedOnTime` exactly as the spec's `onTimeChargesheetedCount` (status
Chargesheeted and non-null `disposalDate ≤ disposalDueDate`), and
`performancePercentage` as `onTime / totalCases * 100` rounded to two decimal
places, 0 for an empty group — on the worked population this yields 40.  The
legacy `getPerformanceReport` instead returns
`round(chargesheetedWithDisposalDate≤now / registeredCount * 100)`, 67 on the
same population. -/
theorem pipeline_performance_metric :
    (∀ cases : List FIR, chargesheetedOnTime cases = specOnTimeChargesheetedCount cases) ∧
    pipelinePerformancePercentage [] = 0 ∧
    chargesheetedOnTime scenarioCases = 4 ∧
    pipelinePerformancePercentage scenarioCases = 40 ∧
    (getPerfStationEntry (100 * msPerDay) scenarioCases 1).performancePercentage = 67 := by
  have h4 : chargesheetedOnTime scenarioCases = 4 := by decide
  have h10 : scenarioCases.length = 10 := by decide
  have hu : legacyUndisposedCount scenarioCases 1 = 6 := by decide
  have hc : legacyChargesheetedByNowCount (100 * msPerDay) scenarioCases 1 = 4 := by decide
  refine ⟨?_, rfl, h4, ?_, ?_⟩
  · intro cases
    unfold chargesheetedOnTime specOnTimeChargesheetedCount
    refine List.countP_congr ?_
    intro f _
    unfold isChargesheetedOnTime
    cases hs : f.disposalStatus <;> cases hd : f.disposalDate <;>
      cases hdu : f.disposalDueDate <;> simp [hs, hd, hdu]
  · unfold pipelinePerformancePercentage
    rw [h4, h10, if_pos (by norm_num)]
    have h40 : (((4 : Nat) : ℚ)) / ((10 : Nat) : ℚ) * 100 = ((4000 : ℕ) : ℚ) / 100 := by
      norm_num
    rw [h40]
    unfold mongoRound2 mongoRound
    rw [show ((4000 : ℕ) : ℚ) / 100 * 100 = ((4000 : ℕ) : ℚ) by norm_num,
      Int.fract_natCast, if_neg (by norm_num), round_natCast]
    norm_num
  · show legacyPerformancePercentage (100 * msPerDay) scenarioCases 1 = 67
    unfold legacyPerformancePercentage
    rw [hu, hc, if_pos (by norm_num), round_eq, Int.floor_eq_iff]
    norm_num

/-! ## C8 — zero-case stations -/

/-- **C8 counterexample.** With a registry holding one active station and an
empty case set, the aggregation pipeline (which groups the *case documents* by
`policeStationId`) produces no group at all — the station is dropped — while
the registry-driven `getPerformanceReport` still reports it with all-zero
metrics.  So "no station from the Station registry is ever dropped" fails for
the pipeline aggregation run. -/
theorem zero_case_station_counterexample :
    pipelineStationKeys ([] : List FIR) = [] ∧
    1 ∉ pipelineStationKeys ([] : List FIR) ∧
    (getPerformanceReportStations [⟨1, "PANAJI PS", true⟩] [] 0).map
      (·.stationId) = [1] := by
  refine ⟨rfl, by decide, by decide⟩

/-- **C8 (amended).** The two registry-driven aggregators
(`getPerformanceReport` and `generatePerformanceReport`) enumerate stations
from the Station registry: every active registered station appears in their
results, and a station with no cases appears with zero counts and a 0%
metric rather than a division error.  (The pipeline aggregator, by contrast,
derives stations from the case data and omits case-less stations.) -/
theorem registry_aggregators_keep_zero_case_stations :
    ∀ (stations : List PoliceStation) (firs : List FIR) (now : Int)
      (st : PoliceStation), st ∈ stations → st.isActive = true →
      (∃ e ∈ getPerformanceReportStations stations firs now, e.stationId = st.id) ∧
      ((∀ f ∈ firs, f.policeStationId ≠ st.id) →
        ∃ e ∈ getPerformanceReportStations stations firs now,
          e.stationId = st.id ∧ e.totalUndisposedFIRs = 0 ∧
          e.totalChargesheetedFIRs = 0 ∧ e.performancePercentage = 0) ∧
      ((∀ f ∈ firs, f.policeStationId ≠ st.id) →
        ∃ r ∈ generatePerformanceReportRows stations firs,
          r.stationId = st.id ∧ r.totalFIRs = 0 ∧ r.completionRate = 0) := by
  intro stations firs now st hmem hact
  have hmf : st ∈ stations.filter (·.isActive) :=
    List.mem_filter.mpr ⟨hmem, by simp [hact]⟩
  have hnil : ∀ (p : FIR → Bool), (∀ f, p f = true → f.policeStationId = st.id) →
      (∀ f ∈ firs, f.policeStationId ≠ st.id) → firs.filter p = [] := by
    intro p hp h
    refine List.filter_eq_nil_iff.mpr ?_
    intro f hf hpf
    exact absurd (hp f hpf) (h f hf)
  have hu : (∀ f ∈ firs, f.policeStationId ≠ st.id) →
      legacyUndisposedCount firs st.id = 0 := by
    intro h
    unfold legacyUndisposedCount
    rw [hnil _ (fun f hpf => by
      simp only [Bool.and_eq_true, beq_iff_eq] at hpf; exact hpf.1) h]
    rfl
  have hcnt : (∀ f ∈ firs, f.policeStationId ≠ st.id) →
      legacyChargesheetedByNowCount now firs st.id = 0 := by
    intro h
    unfold legacyChargesheetedByNowCount
    rw [hnil _ (fun f hpf => by
      simp only [Bool.and_eq_true, beq_iff_eq] at hpf; exact hpf.1.1) h]
    rfl
  have hrep : (∀ f ∈ firs, f.policeStationId ≠ st.id) →
      reportStationFIRs firs st.id = [] := by
    intro h
    unfold reportStationFIRs
    exact hnil _ (fun f hpf => by
      simp only [Bool.and_eq_true, beq_iff_eq] at hpf; exact hpf.1) h
  refine ⟨?_, ?_, ?_⟩
  · exact ⟨getPerfStationEntry now firs st.id,
      List.mem_map.mpr ⟨st, hmf, rfl⟩, rfl⟩
  · intro hnone
    refine ⟨getPerfStationEntry now firs st.id,
      List.mem_map.mpr ⟨st, hmf, rfl⟩, rfl, hu hnone, hcnt hnone, ?_⟩
    show legacyPerformancePercentage now firs st.id = 0
    unfold legacyPerformancePercentage
    rw [hu hnone]
    simp
  · intro hnone
    refine ⟨_, List.mem_map.mpr ⟨st, hmf, rfl⟩, rfl, ?_, ?_⟩
    · show (reportStationFIRs firs st.id).length = 0
      rw [hrep hnone]
      rfl
    · show reportCompletionRate firs st.id = 0
      unfold reportCompletionRate
      rw [hrep hnone]
      simp

/-- Witness for the amended C8: one active station, no cases at all. -/
theorem registry_aggregators_keep_zero_case_stations_witness :
    (∃ e ∈ getPerformanceReportStations [⟨1, "PANAJI PS", true⟩] [] 0,
      e.stationId = 1) ∧
    (∃ e ∈ getPerformanceReportStations [⟨1, "PANAJI PS", true⟩] [] 0,
      e.stationId = 1 ∧ e.totalUndisposedFIRs = 0 ∧
      e.totalChargesheetedFIRs = 0 ∧ e.performancePercentage = 0) ∧
    (∃ r ∈ generatePerformanceReportRows [⟨1, "PANAJI PS", true⟩] [],
      r.stationId = 1 ∧ r.totalFIRs = 0 ∧ r.completionRate = 0) := by
  have h := registry_aggregators_keep_zero_case_stations
    [⟨1, "PANAJI PS", true⟩] [] 0 ⟨1, "PANAJI PS", true⟩
    (List.mem_singleton.mpr rfl) rfl
  exact ⟨h.1, h.2.1 (by simp), h.2.2 (by simp)⟩

/-! ## C7 — the role-scoped view filter of getAllFIRs -/

/-- `POLICE_STATION_HIERARCHY`, North District, flattened
(`firController.js` lines 15–46 / `getStationsByDistrict`). -/
def northDistrictStations : List String :=
  ["PANAJI PS", "OLD GOA PS", "AGACAIM PS", "MAPUSA PS", "ANJUNA PS",
   "COLVALE PS", "BICHOLIM PS", "VALPOI PS", "PERNEM PS", "MANDREM PS",
   "MOPA PS", "PORVORIM PS", "CALANGUTE PS", "SALIGAO PS"]

/-- `POLICE_STATION_HIERARCHY`, South District, flattened. -/
def southDistrictStations : List String :=
  ["MARGAO TOWN PS", "MAINA CURTORIM PS", "FATORDA PS", "COLVA PS",
   "CUNCOLIM PS", "QUEPEM PS", "SANGUEM PS", "CURCHOREM PS", "VASCO PS",
   "VERNA PS", "DABOLIM AIRPORT PS", "MORMUGAO PS", "VASCO RAILWAY PS",
   "PONDA PS", "MARDOL PS", "COLLEM PS"]

/-- `getStationsByDistrict` of `firController.js`. -/
def getStationsByDistrict (v : String) : List String :=
  if v = "north_district" then northDistrictStations
  else if v = "south_district" then southDistrictStations
  else []

/-- `getStationsBySubdivision` of `firController.js`. -/
def getStationsBySubdivision (v : String) : List String :=
  if v = "panaji_sd" then ["PANAJI PS", "OLD GOA PS", "AGACAIM PS"]
  else if v = "mapusa_sd" then ["MAPUSA PS", "ANJUNA PS", "COLVALE PS"]
  else if v = "bicholim_sd" then ["BICHOLIM PS", "VALPOI PS"]
  else if v = "pernem_sd" then ["PERNEM PS", "MANDREM PS", "MOPA PS"]
  else if v = "porvorim_sd" then ["PORVORIM PS", "CALANGUTE PS", "SALIGAO PS"]
  else if v = "margao_sd" then
    ["MARGAO TOWN PS", "MAINA CURTORIM PS", "FATORDA PS", "COLVA PS", "CUNCOLIM PS"]
  else if v = "quepem_sd" then ["QUEPEM PS", "SANGUEM PS", "CURCHOREM PS"]
  else if v = "vasco_sd" then
    ["VASCO PS", "VERNA PS", "DABOLIM AIRPORT PS", "MORMUGAO PS", "VASCO RAILWAY PS"]
  else if v = "ponda_sd" then ["PONDA PS", "MARDOL PS", "COLLEM PS"]
  else []

/-- Does `s` start with `pat` (as character lists)? -/
def charsStartWith (pat s : List Char) : Bool :=
  match pat, s with
  | [], _ => true
  | _ :: _, [] => false
  | p :: ps, c :: cs => p == c && charsStartWith ps cs

/-- Does `pat` occur anywhere in `s` (as character lists)? -/
def charsContain (pat s : List Char) : Bool :=
  match s with
  | [] => charsStartWith pat []
  | _ :: cs => charsStartWith pat s || charsContain pat cs

/-- JavaScript `s.includes(pat)`: substring occurrence test. -/
def strContains (s pat : String) : Bool := charsContain pat.data s.data

/-- The station/role portion of `getAllFIRs`'s `filter` object
(`firController.js` lines 92–133) as a predicate on FIR documents.  When the
request names a `policeStation` query parameter, the filter is built from the
parameter (district, subdivision or single station) **for every role**; the
role-based scoping branch runs only when no parameter is supplied.  The
source's `$or` also probes two legacy field names that are absent from the
FIR schema, so only the `policeStation` comparison can match.  The
independent `status`/`urgency` query filters conjoin separately and are not
part of this claim. -/
def getAllFIRsFilter (user : Actor) (policeStation : Option String) (f : FIR) : Bool :=
  f.isActive &&
    match policeStation with
    | some p =>
      if strContains p "_district" then (getStationsByDistrict p).contains f.policeStation
      else if strContains p "_sd" then (getStationsBySubdivision p).contains f.policeStation
      else f.policeStation == p
    | none =>
      if user.role == "ps" then f.policeStation == user.police_station
      else if user.role == "sdpo" then user.subdivision_stations.contains f.policeStation
      else true

/-- A station officer scoped to PANAJI PS. -/
def panajiOfficer : Actor :=
  { role := "ps", police_station := "PANAJI PS", subdivision_stations := [] }

/-- An active FIR of MAPUSA PS. -/
def mapusaFIR : FIR :=
  { firNumber := "2025/100", sections := [("IPC", "302")],
    policeStation := "MAPUSA PS", policeStationId := 4,
    filingDate := 0, seriousnessDays := 90, disposalStatus := .registered,
    disposalDate := none, disposalDueDate := some (90 * msPerDay),
    isActive := true, status := "active" }

/-- **C7 counterexample.** A station officer scoped to PANAJI PS who *names* a
different station in the request gets that station's cases: the role-based
scoping branch of `getAllFIRs` runs only when no `policeStation` filter is
supplied, so the returned case's station differs from the actor's own. -/
theorem scoped_view_filter_counterexample :
    getAllFIRsFilter panajiOfficer (some "MAPUSA PS") mapusaFIR = true ∧
    mapusaFIR.policeStation ≠ panajiOfficer.police_station := by
  exact ⟨by decide, by decide⟩

/-- **C7 (amended).** The scoping holds only for requests that do not name a
station filter: with no `policeStation` parameter, every case passing a
station officer's filter belongs to the officer's own station, every case
passing a subdivision officer's filter belongs to their station list, and an
admin's filter passes every active case; when a `policeStation` parameter is
named, the effective filter ignores the actor entirely. -/
theorem scoped_view_filter_amended :
    (∀ (user : Actor) (f : FIR), user.role = "ps" →
      getAllFIRsFilter user none f = true → f.policeStation = user.police_station) ∧
    (∀ (user : Actor) (f : FIR), user.role = "sdpo" →
      getAllFIRsFilter user none f = true →
      f.policeStation ∈ user.subdivision_stations) ∧
    (∀ (user : Actor) (f : FIR), user.role = "admin" → f.isActive = true →
      getAllFIRsFilter user none f = true) ∧
    (∀ (u1 u2 : Actor) (p : String) (f : FIR),
      getAllFIRsFilter u1 (some p) f = getAllFIRsFilter u2 (some p) f) := by
  refine ⟨?_, ?_, ?_, fun u1 u2 p f => rfl⟩
  · intro user f hrole h
    simp only [getAllFIRsFilter, hrole, Bool.and_eq_true] at h
    simpa using h.2
  · intro user f hrole h
    simp only [getAllFIRsFilter, hrole, Bool.and_eq_true] at h
    simpa using h.2
  · intro user f hrole hact
    simp [getAllFIRsFilter, hrole, hact]

/-- Witness for the amended C7 at concrete actors and cases. -/
theorem scoped_view_filter_amended_witness :
    ({ firNumber := "2025/101", sections := [("IPC", "302")],
       policeStation := "PANAJI PS", policeStationId := 1, filingDate := 0,
       seriousnessDays := 90, disposalStatus := .registered,
       disposalDate := none, disposalDueDate := some (90 * msPerDay),
       isActive := true, status := "active" } : FIR).policeStation =
      panajiOfficer.police_station ∧
    getAllFIRsFilter adminActor none mapusaFIR = true :=
  ⟨scoped_view_filter_amended.1 panajiOfficer
      { firNumber := "2025/101", sections := [("IPC", "302")],
        policeStation := "PANAJI PS", policeStationId := 1, filingDate := 0,
        seriousnessDays := 90, disposalStatus := .registered,
        disposalDate := none, disposalDueDate := some (90 * msPerDay),
        isActive := true, status := "active" } rfl (by decide),
    scoped_view_filter_amended.2.2.1 adminActor mapusaFIR rfl rfl⟩

/-! ## Case creation and update -/

/-- The due-date `pre('save')` hook of `FIR.model.js` on the millisecond axis:
only when the document is new and `disposalDueDate` is unset does it store
`filingDate + seriousnessDays` days (whole days are `seriousnessDays * msPerDay`
on the linear axis; `computeDueDate` above is the calendar form).  Mongoose
runs this on `save`/`create` but **not** on `findByIdAndUpdate`. -/
def disposalDueDateHookMs (isNew : Bool) (f : FIR) : FIR :=
  if isNew = true ∧ f.disposalDueDate = none then
    { f with disposalDueDate := some (f.filingDate + (f.seriousnessDays : Int) * msPerDay) }
  else f

theorem disposalDueDateHookMs_disposalDate (b : Bool) (f : FIR) :
    (disposalDueDateHookMs b f).disposalDate = f.disposalDate := by
  unfold disposalDueDateHookMs
  split_ifs <;> rfl

/-- The request body of `PUT /api/firs/:id` (`updateFIR`): every field
optional; only supplied fields enter `updateData`. -/
structure UpdateBody where
  firNumber : Option String
  sections : Option (List (String × String))
  policeStation : Option String
  filingDate : Option Int
  seriousnessDays : Option Nat
  status : Option String
  disposalDate : Option Int
deriving DecidableEq, Repr

/-- The `updateData` object built by `updateFIR` (`firController.js` lines
476–497) applied to the stored document: each supplied field overwrites, the
rest keep their values.  `disposalDueDate` is **not among the spreads**, so it
is never part of `updateData`. -/
def applyUpdateData (fir : FIR) (body : UpdateBody)
    (station : Option (String × Nat)) : FIR :=
  { fir with
    firNumber := body.firNumber.getD fir.firNumber,
    sections := body.sections.getD fir.sections,
    filingDate := body.filingDate.getD fir.filingDate,
    seriousnessDays := body.seriousnessDays.getD fir.seriousnessDays,
    disposalStatus :=
      match body.status with
      | some s => statusOfString s
      | none => fir.disposalStatus,
    disposalDate :=
      match body.disposalDate with
      | some d => some d
      | none => fir.disposalDate,
    policeStation :=
      match station with
      | some (n, _) => n
      | none => fir.policeStation,
    policeStationId :=
      match station with
      | some (_, i) => i
      | none => fir.policeStationId }

/-- `updateFIR` of `firController.js` (lines 431–519): role scoping on the
extracted station name, FIR-number uniqueness, schema enum validation (from
`runValidators: true`), optional police-station lookup, then
`findByIdAndUpdate` with `updateData` — which never recomputes
`disposalDueDate` and runs no `pre('save')` hook. -/
def updateFIR (user : Actor) (fir : FIR) (body : UpdateBody)
    (firNumberTaken : String → Bool)
    (stationLookup : String → Option (String × Nat)) : Except String FIR :=
  if user.role = "ps" ∧ extractStationName fir.policeStation ≠ user.police_station then
    .error "Access denied"
  else if user.role = "sdpo" ∧
      extractStationName fir.policeStation ∉ user.subdivision_stations then
    .error "Access denied"
  else if (match body.firNumber with
           | some fn => decide (fn ≠ fir.firNumber) && firNumberTaken fn
           | none => false) = true then
    .error "FIR Number already exists"
  else if (match body.status with
           | some s => decide (¬ (s = "Registered" ∨ s = "Chargesheeted" ∨ s = "Finalized"))
           | none => false) = true then
    .error "Validation failed"
  else
    match body.policeStation with
    | some p =>
      match stationLookup p with
      | none => .error "Police station not found"
      | some st => .ok (applyUpdateData fir body (some st))
    | none => .ok (applyUpdateData fir body none)

/-- `createFIR` of `firController.js` (lines 344–426) together with the schema
validations and `pre('save')` hooks that `FIR.create` runs: uniqueness of the
FIR number, non-empty sections with non-empty act/section pairs, station
lookup, no future filing date, the `seriousnessDays` and `disposalStatus`
enums, the disposal-date ordering hook, then the document is stored with
`disposalStatus: status || 'Registered'`,
`disposalDate: disposalDate ? ... : null`, and the due-date hook fires. -/
def createFIR (firNumber : String) (sections : List (String × String))
    (policeStation : String) (filingDate : Int) (seriousnessDays : Nat)
    (status : Option String) (disposalDate : Option Int)
    (firNumberTaken : String → Bool)
    (stationLookup : String → Option (String × Nat)) (now : Int) :
    Except String FIR :=
  if firNumberTaken firNumber then .error "FIR Number already exists"
  else if sections.length = 0 then .error "At least one section is required"
  else if sections.any (fun sec => sec.1 == "" || sec.2 == "") then
    .error "Each section must have both act and section"
  else
    match stationLookup policeStation with
    | none => .error "Police station not found"
    | some (stationName, stationId) =>
      if now < filingDate then .error "Filing date cannot be in the future"
      else if ¬ (seriousnessDays = 60 ∨ seriousnessDays = 90 ∨ seriousnessDays = 180) then
        .error "Validation failed"
      else if (match status with
               | some s => decide (¬ (s = "Registered" ∨ s = "Chargesheeted" ∨ s = "Finalized"))
               | none => false) = true then
        .error "Validation failed"
      else if (match disposalDate with
               | some d => decide (d < filingDate)
               | none => false) = true then
        .error "Disposal date cannot be before filing date"
      else
        .ok (disposalDueDateHookMs true
          { firNumber := firNumber, sections := sections,
            policeStation := stationName, policeStationId := stationId,
            filingDate := filingDate, seriousnessDays := seriousnessDays,
            disposalStatus :=
              match status with
              | some s => statusOfString s
              | none => .registered,
            disposalDate :=
              match disposalDate with
              | some d => some d
              | none => none,
            disposalDueDate := none, isActive := true, status := "active" })

/-! ## C6 — the stored due date is never recomputed -/

/-- **C6.** An update through `updateFIR` — whatever fields it changes,
`seriousnessDays` included — leaves the stored `disposalDueDate` unchanged,
and the model's due-date hook is the identity on documents that are not new:
the due date is derived once at creation and never recomputed. -/
theorem updateFIR_never_changes_dueDate :
    (∀ (user : Actor) (fir : FIR) (body : UpdateBody)
        (firNumberTaken : String → Bool)
        (stationLookup : String → Option (String × Nat)) (u : FIR),
      updateFIR user fir body firNumberTaken stationLookup = .ok u →
      u.disposalDueDate = fir.disposalDueDate) ∧
    (∀ fir : FIR, disposalDueDateHookMs false fir = fir) := by
  constructor
  · intro user fir body firNumberTaken stationLookup u h
    unfold updateFIR at h
    split_ifs at h
    split at h
    · split at h
      · simp at h
      · simp only [Except.ok.injEq] at h
        subst h
        rfl
    · simp only [Except.ok.injEq] at h
      subst h
      rfl
  · intro fir
    unfold disposalDueDateHookMs
    rw [if_neg (by simp)]

/-- Witness for C6: a successful update that raises `seriousnessDays` to 180
leaves the stored due date intact. -/
theorem updateFIR_never_changes_dueDate_witness :
    (applyUpdateData sampleRegisteredFIR
      { firNumber := none, sections := none, policeStation := none,
        filingDate := none, seriousnessDays := some 180, status := none,
        disposalDate := none } none).disposalDueDate =
      sampleRegisteredFIR.disposalDueDate ∧
    disposalDueDateHookMs false sampleRegisteredFIR = sampleRegisteredFIR :=
  ⟨updateFIR_never_changes_dueDate.1 adminActor sampleRegisteredFIR
      { firNumber := none, sections := none, policeStation := none,
        filingDate := none, seriousnessDays := some 180, status := none,
        disposalDate := none } (fun _ => false) (fun _ => none) _ rfl,
    updateFIR_never_changes_dueDate.2 sampleRegisteredFIR⟩

/-! ## C9 — Registered cases and disposal dates -/

/-- The document produced by `createFIR` when the request supplies no status
(defaulting to `Registered`) **and** an explicit disposal date. -/
def registeredWithDateFIR : FIR :=
  { firNumber := "2025/009", sections := [("IPC", "302")],
    policeStation := "PANAJI PS", policeStationId := 1, filingDate := 0,
    seriousnessDays := 90, disposalStatus := .registered,
    disposalDate := some (5 * msPerDay), disposalDueDate := some (90 * msPerDay),
    isActive := true, status := "active" }

/-- **C9 counterexample.** `createFIR` accepts a request with no `status`
(so the case is created `Registered`) together with a `disposalDate`, and
stores both: the created case is in `Registered` with a non-null
`disposalDate`, violating the invariant. -/
theorem registered_case_with_disposalDate_counterexample :
    createFIR "2025/009" [("IPC", "302")] "PANAJI PS" 0 90 none (some (5 * msPerDay))
        (fun _ => false) (fun _ => some ("PANAJI PS", 1)) (10 * msPerDay) =
      .ok registeredWithDateFIR ∧
    registeredWithDateFIR.disposalStatus = .registered ∧
    registeredWithDateFIR.disposalDate ≠ none := by
  exact ⟨rfl, rfl, by decide⟩

/-- **C9 (amended).** The invariant is preserved only on the paths that do
not explicitly supply a disposal date: `createFIR` with no `disposalDate`
input stores `null`, and the legacy disposal update never leaves a case in
`Registered`.  (`createFIR` with an explicit `disposalDate` and the wired
disposal controller with status `'Registered'` both break it.) -/
theorem registered_no_disposalDate_amended :
    (∀ (firNumber : String) (sections : List (String × String))
        (policeStation : String) (filingDate : Int) (seriousnessDays : Nat)
        (status : Option String) (firNumberTaken : String → Bool)
        (stationLookup : String → Option (String × Nat)) (now : Int) (u : FIR),
      createFIR firNumber sections policeStation filingDate seriousnessDays
        status none firNumberTaken stationLookup now = .ok u →
      u.disposalDate = none) ∧
    (∀ (user : Actor) (fir : FIR) (status : Option String)
        (dateOfDisposal : Option Int) (u : FIR),
      updateFIRDisposalLegacy user fir status dateOfDisposal = .ok u →
      u.disposalStatus ≠ .registered) := by
  constructor
  · intro firNumber sections policeStation filingDate seriousnessDays status
      firNumberTaken stationLookup now u h
    unfold createFIR at h
    split_ifs at h <;> split at h <;>
      first
        | (simp only [Except.ok.injEq] at h
           subst h
           simp [disposalDueDateHookMs_disposalDate])
        | simp at h
  · intro user fir status dateOfDisposal u h
    cases status with
    | none => simp [updateFIRDisposalLegacy] at h
    | some s =>
      cases dateOfDisposal with
      | none => simp [updateFIRDisposalLegacy] at h
      | some d =>
        simp only [updateFIRDisposalLegacy] at h
        split_ifs at h with h1 h2 h3 h4 h5
        all_goals try simp only [Except.ok.injEq] at h
        all_goals
          first
            | exact absurd h (by simp)
            | (subst h; rcases h1 with rfl | rfl <;> simp [statusOfString])

/-- Witness for the amended C9 at concrete inputs. -/
theorem registered_no_disposalDate_amended_witness :
    (disposalDueDateHookMs true
      { firNumber := "2025/010", sections := [("IPC", "302")],
        policeStation := "PANAJI PS", policeStationId := 1, filingDate := 0,
        seriousnessDays := 90, disposalStatus := .registered,
        disposalDate := none, disposalDueDate := none, isActive := true,
        status := "active" }).disposalDate = none ∧
    ({ sampleRegisteredFIR with disposalStatus := .finalized, disposalDate := some 3, status := "closed" } : FIR).disposalStatus ≠
      .registered :=
  ⟨registered_no_disposalDate_amended.1 "2025/010" [("IPC", "302")] "PANAJI PS"
      0 90 none (fun _ => false) (fun _ => some ("PANAJI PS", 1)) 0 _ rfl,
    registered_no_disposalDate_amended.2 adminActor sampleRegisteredFIR
      (some "Finalized") (some 3) _ rfl⟩
